import Mathlib

/-!
# Verification of the AtlasPie context-sensitive profile router

Shallow embedding of `src-tauri/src/services/profile_router.rs` together
with the domain types it consumes (`domain/profile.rs`,
`domain/context_rules.rs`, `services/system_status.rs`).

Conventions of the embedding:
* Rust `i32` coordinates are modelled as `Int` (the router only compares
  them for equality, so wrap-around never arises).
* Rust `u8` scores are modelled as `Nat`; every score the router produces
  is in `{0,,5} ∪ {255}`, far below `2^8`, so no reduction mod 256 is needed.
* `OffsetDateTime` is modelled as `Int` (only ordering and equality of
  timestamps matter to the router).
* `HashMap<usize, OffsetDateTime>` is modelled as an association list with
  insert-or-overwrite semantics.
* The external `regex` crate is modelled by `Regex` below, restricted to
  the fragment the development exercises: metacharacter-free patterns
  match as literal substrings (the crate's default, case-sensitive,
  behaviour) and compilation fails exactly on unbalanced parentheses
  (e.g. an unclosed group).  `Regex::new` receives no flags in the source,
  so no case-insensitivity is modelled.
* Mutex poisoning cannot occur in a pure embedding, so the `Result` layer
  of `update_active_profile` collapses to its `Ok` branch.
-/

namespace ProfileRouter

/-- `MatchKind` from `profile_router.rs`. -/
inductive MatchKind where
  | processName
  | windowTitle
  | windowClass
  | screenArea
  | custom
  | fallback
deriving DecidableEq, Repr

/-- `ScreenArea` from `domain/context_rules.rs` (also standing for the
structurally identical `ScreenAreaSnapshot` from `services/system_status.rs`,
which the router builds field-by-field from a `ScreenArea`). -/
structure ScreenArea where
  x : Int
  y : Int
  width : Int
  height : Int
deriving DecidableEq, Repr

/-- `ActivationMatchMode` from `domain/profile.rs`. -/
inductive ActivationMatchMode where
  | always
  | processName
  | windowTitle
  | windowClass
  | screenArea
  | custom
deriving DecidableEq, Repr

/-- `ActivationRule` from `domain/profile.rs`. -/
structure ActivationRule where
  mode : ActivationMatchMode
  value : Option String
  negate : Option Bool
  is_regex : Option Bool
  case_sensitive : Option Bool
  screen_area : Option ScreenArea
deriving DecidableEq, Repr

/-- The fields of `domain/profile.rs::Profile` read by the router.
`ProfileId` (a UUID newtype) is modelled as `Nat`; the router only
compares ids for equality. -/
structure Profile where
  id : Nat
  name : String
  enabled : Bool
  activation_rules : List ActivationRule
  hold_to_open : Bool
deriving DecidableEq, Repr

/-- `ProfileRecord` from `storage/profile_repository.rs` (menus, actions and
bookkeeping timestamps are never read by the router and are omitted). -/
structure ProfileRecord where
  profile : Profile
deriving DecidableEq, Repr

/-- `ProfileStore` from `storage/profile_repository.rs`, restricted to the
fields the router reads. -/
structure ProfileStore where
  profiles : List ProfileRecord
  active_profile_id : Option Nat
deriving DecidableEq, Repr

/-- `WindowSnapshot` from `services/system_status.rs`, restricted to the
fields the router reads. -/
structure WindowSnapshot where
  process_name : Option String
  window_title : Option String
  window_class : Option String
  screen_area : Option ScreenArea
deriving DecidableEq, Repr

/-- Model of a compiled `regex::Regex`: the pattern it was built from.
Matching (`is_match`) is modelled for metacharacter-free patterns as a
case-sensitive literal substring test, the crate's behaviour on such
patterns when, as in this source, no flag is supplied. -/
structure Regex where
  pattern : String
deriving DecidableEq, Repr

/-- Paren balance check standing in for `regex` syntax validation: the
development only exercises compile failures caused by an unclosed group. -/
def parenBalanced : List Char → Nat → Bool
  | [], depth => depth == 0
  | c :: rest, depth =>
    if c = '(' then parenBalanced rest (depth + 1)
    else if c = ')' then
      match depth with
      | 0 => false
      | d + 1 => parenBalanced rest d
    else parenBalanced rest depth

/-- Model of `regex::Regex::new`: succeeds iff the pattern is
syntactically valid (here: balanced parentheses). -/
def Regex.new (pattern : String) : Option Regex :=
  if parenBalanced pattern.toList 0 then some ⟨pattern⟩ else none

/-- Does `pat` occur at the start of `hay`? (char-list level). -/
def listHasPre : List Char → List Char → Bool
  | _, [] => true
  | [], _ :: _ => false
  | a :: hay, b :: pat => a == b && listHasPre hay pat

/-- Does `pat` occur as a contiguous run inside `hay`? (char-list level). -/
def listHasSub : List Char → List Char → Bool
  | [], pat => pat.isEmpty
  | a :: hay, pat => listHasPre (a :: hay) pat || listHasSub hay pat

/-- Model of `Regex::is_match` on the literal fragment: case-sensitive
substring containment. -/
def Regex.is_match (r : Regex) (s : String) : Bool :=
  listHasSub s.toList r.pattern.toList

/-- Rust `char::is_whitespace`, restricted to the ASCII whitespace
characters the development exercises. -/
def isRustWs (c : Char) : Bool :=
  c == ' ' || c == '\t' || c == '\n' || c == '\r'

/-- Rust `str::trim`: strip leading and trailing whitespace. -/
def strTrim (s : String) : String :=
  ⟨(((s.toList.dropWhile isRustWs).reverse).dropWhile isRustWs).reverse⟩

/-- Rust `str::starts_with`. -/
def strStartsWith (s pre : String) : Bool :=
  listHasPre s.toList pre.toList

/-- Rust `str::is_empty`. -/
def strIsEmpty (s : String) : Bool :=
  s.toList.isEmpty

/-- Rust byte slicing `s[n..]` (used only with the ASCII prefix `"regex:"`,
where byte count and character count agree): drop the first `n` characters. -/
def strDrop (s : String) (n : Nat) : String :=
  ⟨s.toList.drop n⟩

/-- `Target` from `profile_router.rs`. -/
inductive Target where
  | process
  | windowTitle
  | windowClass
  | any
  | screenArea
deriving DecidableEq, Repr

/-- `Matcher` from `profile_router.rs`. -/
inductive Matcher where
  | exact (value : String) (case_sensitive : Bool)
  | regex (r : Regex)
  | screenArea (area : ScreenArea)
  | fallback
deriving DecidableEq, Repr

/-- `Rule` from `profile_router.rs`. -/
structure Rule where
  target : Target
  matcher : Matcher
  raw : String
deriving DecidableEq, Repr

/-- `MatchInfo` from `profile_router.rs`. -/
structure MatchInfo where
  kind : MatchKind
  score : Nat
  rule : String
  fallback : Bool
deriving DecidableEq, Repr

/-- ASCII lower-casing of one character, as used by Rust's
`eq_ignore_ascii_case`. -/
def asciiLower (c : Char) : Char :=
  if 'A' ≤ c ∧ c ≤ 'Z' then Char.ofNat (c.toNat + 32) else c

/-- Rust `str::eq_ignore_ascii_case`. -/
def eqIgnoreAsciiCase (a b : String) : Bool :=
  a.toList.map asciiLower == b.toList.map asciiLower

/-- `Target::match_kind` from `profile_router.rs`. -/
def Target.match_kind : Target → MatchKind
  | .process => .processName
  | .windowTitle => .windowTitle
  | .windowClass => .windowClass
  | .screenArea => .screenArea
  | .any => .custom

/-- `Target::match_score` from `profile_router.rs`. -/
def Target.match_score : Target → Nat
  | .screenArea => 5
  | .process => 4
  | .windowClass => 3
  | .windowTitle => 2
  | .any => 1

/-- `build_text_rule` from `profile_router.rs`. -/
def build_text_rule (rule : ActivationRule) (target : Target) : Option Rule :=
  match rule.value with
  | none => none
  | some v =>
    let raw := strTrim v
    if strIsEmpty raw then none
    else
      let isRegexFlag := rule.is_regex.getD (strStartsWith raw "regex:")
      let caseSensitive := rule.case_sensitive.getD false
      if isRegexFlag then
        let pattern := if strStartsWith raw "regex:" then strTrim (strDrop raw 6) else raw
        if strIsEmpty pattern then none
        else
          match Regex.new pattern with
          | some regex => some ⟨target, .regex regex, raw⟩
          | none => none
      else some ⟨target, .exact raw caseSensitive, raw⟩

/-- `build_screen_area_rule` from `profile_router.rs`. -/
def build_screen_area_rule (rule : ActivationRule) : Option Rule :=
  match rule.screen_area with
  | none => none
  | some area =>
    some ⟨.screenArea, .screenArea ⟨area.x, area.y, area.width, area.height⟩,
      "screen_area:" ++ toString area.x ++ "x" ++ toString area.y ++ ":"
        ++ toString area.width ++ "x" ++ toString area.height⟩

/-- `parse_rule` from `profile_router.rs`. -/
def parse_rule (rule : ActivationRule) : Option Rule :=
  match rule.mode with
  | .always => some ⟨.any, .fallback, "fallback"⟩
  | .processName => build_text_rule rule .process
  | .windowTitle => build_text_rule rule .windowTitle
  | .windowClass => build_text_rule rule .windowClass
  | .custom => build_text_rule rule .any
  | .screenArea => build_screen_area_rule rule

/-- `parse_rules` from `profile_router.rs`. -/
def parse_rules (handles : List ActivationRule) : List Rule :=
  handles.filterMap parse_rule

/-- `rule_applies` from `profile_router.rs`. -/
def rule_applies (target : Target) (process window cls : Option String)
    (predicate : String → Bool) : Bool :=
  let check : Option String → Bool := fun candidate =>
    match candidate with
    | none => false
    | some value => predicate value
  match target with
  | .process => check process
  | .windowTitle => check window
  | .windowClass => check cls
  | .any => check process || check window || check cls
  | .screenArea => false

/-- `match_rules` from `profile_router.rs`: first matching rule wins. -/
def match_rules (rules : List Rule) (process_name window_title window_class : Option String)
    (screen_area : Option ScreenArea) : Option MatchInfo :=
  match rules with
  | [] => none
  | rule :: rest =>
    match rule.matcher with
    | .fallback =>
      some ⟨.fallback, rule.target.match_score, rule.raw, true⟩
    | .exact value case_sensitive =>
      if rule_applies rule.target process_name window_title window_class
          (fun candidate =>
            if case_sensitive then candidate == value
            else eqIgnoreAsciiCase candidate value) then
        some ⟨rule.target.match_kind, rule.target.match_score, rule.raw, false⟩
      else match_rules rest process_name window_title window_class screen_area
    | .regex regex =>
      if rule_applies rule.target process_name window_title window_class
          (fun candidate => regex.is_match candidate) then
        some ⟨rule.target.match_kind, rule.target.match_score, rule.raw, false⟩
      else match_rules rest process_name window_title window_class screen_area
    | .screenArea expected =>
      match screen_area with
      | some actual =>
        if actual.x == expected.x && actual.y == expected.y
            && actual.width == expected.width && actual.height == expected.height then
          some ⟨.screenArea, rule.target.match_score, rule.raw, false⟩
        else match_rules rest process_name window_title window_class screen_area
      | none => match_rules rest process_name window_title window_class screen_area

/-- `ActiveProfileSnapshot` from `profile_router.rs`.  `selected_at` holds the
RFC3339-formatted timestamp string. -/
structure ActiveProfileSnapshot where
  index : Nat
  name : String
  match_kind : MatchKind
  hold_to_open : Bool
  selector_score : Option Nat
  matched_rule : Option String
  selected_at : Option String
  fallback_applied : Bool
deriving DecidableEq, Repr

/-- `ProfileCandidate` from `profile_router.rs`. -/
structure ProfileCandidate where
  snapshot : ActiveProfileSnapshot
  score : Nat
  last_selected : Option Int
  order : Nat
deriving DecidableEq, Repr

/-- `ProfileCandidate::from_match` from `profile_router.rs`. -/
def ProfileCandidate.from_match (index : Nat) (name : String) (info : MatchInfo)
    (last_selected : Option Int) (hold_to_open : Bool) : ProfileCandidate :=
  { snapshot :=
      { index, name, match_kind := info.kind, hold_to_open,
        selector_score := some info.score, matched_rule := some info.rule,
        selected_at := none, fallback_applied := info.fallback },
    score := info.score, last_selected, order := index }

/-- `ProfileCandidate::fallback` from `profile_router.rs`. -/
def ProfileCandidate.fallback (index : Nat) (name : String)
    (last_selected : Option Int) (hold_to_open : Bool) : ProfileCandidate :=
  { snapshot :=
      { index, name, match_kind := .fallback, hold_to_open,
        selector_score := some 0, matched_rule := some "fallback",
        selected_at := none, fallback_applied := true },
    score := 0, last_selected, order := index }

/-- `is_better_candidate` from `profile_router.rs`. -/
def is_better_candidate (new : ProfileCandidate) (current : Option ProfileCandidate) : Bool :=
  match current with
  | none => true
  | some existing =>
    if new.score ≠ existing.score then decide (new.score > existing.score)
    else
      match new.last_selected, existing.last_selected with
      | some a, some b => decide (a > b)
      | some _, none => true
      | none, some _ => false
      | none, none => decide (new.order < existing.order)

/-- The history `HashMap<usize, OffsetDateTime>` as an association list with
insert-or-overwrite semantics. -/
structure HistoryMap where
  entries : List (Nat × Int)
deriving DecidableEq, Repr

/-- `HashMap::get` (copied): the timestamp stored for profile `k`, if any. -/
def HistoryMap.get (m : HistoryMap) (k : Nat) : Option Int :=
  (m.entries.find? (fun e => e.1 == k)).map (·.2)

/-- `HashMap::insert`: overwrite the entry for `k` if present, else add it. -/
def HistoryMap.insert (m : HistoryMap) (k : Nat) (v : Int) : HistoryMap :=
  if m.entries.any (fun e => e.1 == k) then
    ⟨m.entries.map (fun e => if e.1 == k then (k, v) else e)⟩
  else ⟨(k, v) :: m.entries⟩

/-- The manual-override snapshot the `select_profile` loop synthesizes for an
enabled profile whose id equals `store.active_profile_id`
(`profile_router.rs` lines 45-59). -/
def manualSnapshot (index : Nat) (record : ProfileRecord) : ActiveProfileSnapshot :=
  { index, name := record.profile.name, match_kind := .custom,
    hold_to_open := record.profile.hold_to_open, selector_score := some 255,
    matched_rule := some "manual override", selected_at := none,
    fallback_applied := false }

/-- The three accumulators of the `select_profile` loop: the best rule-based
candidate, the fallback candidate slot, and the manual-override snapshot. -/
structure SelectState where
  best : Option ProfileCandidate
  fallback : Option ProfileCandidate
  manual : Option ActiveProfileSnapshot
deriving DecidableEq, Repr

/-- One iteration of the `for (index, record)` loop of `select_profile`
(`profile_router.rs` lines 40-99): skip disabled profiles, capture the manual
override, evaluate the profile's rules, and route the candidate to the
fallback slot or the best slot. -/
def select_step (activeId : Option Nat) (window : WindowSnapshot) (history : HistoryMap)
    (s : SelectState) (entry : Nat × ProfileRecord) : SelectState :=
  let index := entry.1
  let record := entry.2
  if record.profile.enabled = false then s
  else if activeId = some record.profile.id then
    { s with manual := some (manualSnapshot index record) }
  else
    let rules := parse_rules record.profile.activation_rules
    let match_info := match_rules rules window.process_name window.window_title
      window.window_class window.screen_area
    let last_selected := history.get index
    let candidate :=
      match match_info with
      | some info =>
        ProfileCandidate.from_match index record.profile.name info last_selected
          record.profile.hold_to_open
      | none =>
        ProfileCandidate.fallback index record.profile.name last_selected
          record.profile.hold_to_open
    if candidate.snapshot.match_kind = .fallback then { s with fallback := some candidate }
    else if is_better_candidate candidate s.best then { s with best := some candidate }
    else s

/-- The `select_profile` loop over all profiles, in declaration order. -/
def routerScan (store : ProfileStore) (window : WindowSnapshot) (history : HistoryMap) :
    SelectState :=
  store.profiles.enum.foldl (select_step store.active_profile_id window history)
    ⟨none, none, none⟩

/-- `select_profile` from `profile_router.rs`: run the loop, then return
`best.map(snapshot).or(manual).or_else(|| fallback.map(snapshot))`. -/
def select_profile (store : ProfileStore) (window : WindowSnapshot) (history : HistoryMap) :
    Option ActiveProfileSnapshot :=
  let final := routerScan store window history
  ((final.best.map (·.snapshot)).orElse (fun _ => final.manual)).orElse
    (fun _ => final.fallback.map (·.snapshot))

/-- `format_timestamp` from `profile_router.rs`, with the RFC3339 rendering of
the external `time` crate abstracted to an injective decimal rendering of the
model timestamp. -/
def format_timestamp (datetime : Int) : String :=
  toString datetime

/-- The state owned by `ProfileRouterState`: the current snapshot cell and the
selection-history map (each behind a mutex in the source; pure record here). -/
structure RouterState where
  current : Option ActiveProfileSnapshot
  history : HistoryMap
deriving DecidableEq, Repr

/-- `update_active_profile` from `profile_router.rs`: if `next_profile`
differs from the stored current value (derived `PartialEq`, all fields
included), stamp `selected_at`, record the selection in the history map when
the new value is `Some`, replace the current value, and return the committed
value; otherwise change nothing and return `None`.  Returns the new state
paired with the notification. -/
def update_active_profile (state : RouterState)
    (next_profile : Option ActiveProfileSnapshot) (now : Int) :
    RouterState × Option (Option ActiveProfileSnapshot) :=
  if state.current ≠ next_profile then
    let updated := next_profile.map (fun snapshot =>
      { snapshot with selected_at := some (format_timestamp now) })
    let history :=
      match updated with
      | some snapshot => state.history.insert snapshot.index now
      | none => state.history
    (⟨updated, history⟩, some updated)
  else (state, none)

/-- Observable output of one run of `evaluate_from_state`: the new router
state, the audit-log lines written (one `log_selection` entry per element,
holding the logged snapshot), and the change events emitted via `on_change`. -/
structure EvalOutput where
  state : RouterState
  audit_log : List ActiveProfileSnapshot
  events : List (Option ActiveProfileSnapshot)
deriving DecidableEq, Repr

/-- `evaluate_from_state` from `profile_router.rs`: select, commit via
`update_active_profile`, and on a committed change write one audit line when
the payload is `Some` and emit the change event. -/
def evaluate_from_state (store : ProfileStore) (window : WindowSnapshot)
    (state : RouterState) (now : Int) : EvalOutput :=
  let next_profile := select_profile store window state.history
  match update_active_profile state next_profile now with
  | (state', some payload) =>
    { state := state',
      audit_log := match payload with
        | some snapshot => [snapshot]
        | none => [],
      events := [payload] }
  | (state', none) => { state := state', audit_log := [], events := [] }

/-- The comparison the specification prescribes for `update`: value equality
of optional snapshots ignoring the `selected_at` field.  (Spec-side
definition, to be compared with the equality the code actually uses.) -/
def eqIgnoringSelectedAt (a b : Option ActiveProfileSnapshot) : Bool :=
  decide (a.map (fun s => { s with selected_at := none }) =
    b.map (fun s => { s with selected_at := none }))

/-- The fallback-kind candidate a single loop entry contributes to
`select_profile`'s fallback slot, if any; mirrors the classification done by
`select_step`. -/
def stepFallbackCandidate (activeId : Option Nat) (window : WindowSnapshot)
    (history : HistoryMap) (entry : Nat × ProfileRecord) : Option ProfileCandidate :=
  let index := entry.1
  let record := entry.2
  if record.profile.enabled = false then none
  else if activeId = some record.profile.id then none
  else
    let rules := parse_rules record.profile.activation_rules
    let match_info := match_rules rules window.process_name window.window_title
      window.window_class window.screen_area
    let last_selected := history.get index
    let candidate :=
      match match_info with
      | some info =>
        ProfileCandidate.from_match index record.profile.name info last_selected
          record.profile.hold_to_open
      | none =>
        ProfileCandidate.fallback index record.profile.name last_selected
          record.profile.hold_to_open
    if candidate.snapshot.match_kind = .fallback then some candidate else none

/-- The fallback candidate contributed by the LAST entry of the list that
contributes one (later entries take precedence). -/
def lastFallback (activeId : Option Nat) (window : WindowSnapshot) (history : HistoryMap) :
    List (Nat × ProfileRecord) → Option ProfileCandidate
  | [] => none
  | entry :: rest =>
    match lastFallback activeId window history rest with
    | some c => some c
    | none => stepFallbackCandidate activeId window history entry

/-! Concrete fixtures used to exercise the embedding. -/

/-- A plain exact-match process rule. -/
def exChromeRule : ActivationRule :=
  ⟨.processName, some "chrome.exe", none, none, none, none⟩

/-- A regex process rule with neither `is_regex` nor `case_sensitive` set. -/
def exRegexRule : ActivationRule :=
  ⟨.processName, some "regex:chrome", none, none, none, none⟩

/-- A regex rule whose pattern fails to compile (unclosed group). -/
def exBadRegexRule : ActivationRule :=
  ⟨.processName, some "regex:(", none, none, none, none⟩

/-- An `Always` rule. -/
def exAlwaysRule : ActivationRule :=
  ⟨.always, none, none, none, none, none⟩

/-- A `ScreenArea` rule whose rectangle has zero width and height. -/
def exZeroAreaRule : ActivationRule :=
  ⟨.screenArea, none, none, none, none, some ⟨0, 0, 0, 0⟩⟩

/-- A `ScreenArea` rule with negative width and zero height. -/
def exNegAreaRule : ActivationRule :=
  ⟨.screenArea, none, none, none, none, some ⟨1, 2, -3, 0⟩⟩

/-- One enabled profile guarded by a single process rule. -/
def exChromeStore : ProfileStore :=
  ⟨[⟨⟨1, "Chrome", true, [exChromeRule], false⟩⟩], none⟩

/-- A store whose first profile is the manually-activated one and whose
second profile has a rule that will not match, so it can only be a fallback
candidate. -/
def exManualStore : ProfileStore :=
  ⟨[⟨⟨7, "Manual", true, [], false⟩⟩, ⟨⟨8, "Fb", true, [exChromeRule], false⟩⟩], some 7⟩

/-- Two enabled profiles with no rules at all: both are fallback-only. -/
def exTwoFallbackStore : ProfileStore :=
  ⟨[⟨⟨1, "A", true, [], false⟩⟩, ⟨⟨2, "B", true, [], false⟩⟩], none⟩

/-- Two enabled profiles with identical `Custom` rules matching the same
snapshot (spec Scenario C). -/
def exTieStore : ProfileStore :=
  ⟨[⟨⟨1, "First", true, [⟨.custom, some "chrome.exe", none, none, none, none⟩], false⟩⟩,
    ⟨⟨2, "Second", true, [⟨.custom, some "chrome.exe", none, none, none, none⟩], false⟩⟩], none⟩

/-- A snapshot whose foreground process matches none of the fixture rules. -/
def exNotepadWindow : WindowSnapshot :=
  ⟨some "notepad.exe", none, none, none⟩

/-- A rule-based candidate with score 2, no history, declaration index 0. -/
def exCandA : ProfileCandidate :=
  ⟨⟨0, "First", .windowTitle, false, some 2, some "x", none, false⟩, 2, none, 0⟩

/-- A rule-based candidate with score 2, no history, declaration index 1. -/
def exCandB : ProfileCandidate :=
  ⟨⟨1, "Second", .windowTitle, false, some 2, some "x", none, false⟩, 2, none, 1⟩

/-- A committed snapshot as stored by the router after a change at `now = 1`. -/
def exSnapA : ActiveProfileSnapshot :=
  ⟨0, "Chrome", .processName, false, some 4, some "chrome.exe", some "1", false⟩

/-- Router state holding `exSnapA` and one history entry recorded at `now = 1`. -/
def exState : RouterState :=
  ⟨some exSnapA, ⟨[(0, 1)]⟩⟩

/-- A snapshot whose foreground process is `chrome.exe`. -/
def exChromeWindow : WindowSnapshot :=
  ⟨some "chrome.exe", none, none, none⟩

/-- First evaluation of the chrome fixture from the empty router state. -/
def exFirstEval : EvalOutput :=
  evaluate_from_state exChromeStore exChromeWindow ⟨none, ⟨[]⟩⟩ 1

/-- Second evaluation of the same store and snapshot, from the state the
first evaluation committed. -/
def exSecondEval : EvalOutput :=
  evaluate_from_state exChromeStore exChromeWindow exFirstEval.state 2

/-! ## Helper lemmas -/

/-- One loop iteration either leaves the manual-override slot unchanged or
installs the manual snapshot of an enabled profile whose id is the active
one. -/
theorem selectStep_manual_cases (activeId : Option Nat) (window : WindowSnapshot)
    (history : HistoryMap) (s : SelectState) (entry : Nat × ProfileRecord) :
    (select_step activeId window history s entry).manual = s.manual ∨
    ((select_step activeId window history s entry).manual =
        some (manualSnapshot entry.1 entry.2) ∧
      entry.2.profile.enabled = true ∧ activeId = some entry.2.profile.id) := by
  unfold select_step
  by_cases h1 : entry.2.profile.enabled = false
  · simp [h1]
  · by_cases h2 : activeId = some entry.2.profile.id
    · simp [h1, h2]
    · rw [if_neg h1, if_neg h2]
      dsimp only
      split
      · left; rfl
      · split
        · left; rfl
        · left; rfl

/-- One loop iteration rewrites the fallback slot exactly when the entry
contributes a fallback-kind candidate, overwriting whatever was there. -/
theorem selectStep_fallback_eq (activeId : Option Nat) (window : WindowSnapshot)
    (history : HistoryMap) (s : SelectState) (entry : Nat × ProfileRecord) :
    (select_step activeId window history s entry).fallback =
      match stepFallbackCandidate activeId window history entry with
      | some c => some c
      | none => s.fallback := by
  unfold select_step stepFallbackCandidate
  by_cases h1 : entry.2.profile.enabled = false
  · simp [h1]
  · by_cases h2 : activeId = some entry.2.profile.id
    · simp [h1, h2]
    · rw [if_neg h1, if_neg h2, if_neg h1, if_neg h2]
      dsimp only
      split
      · rfl
      · split
        · rfl
        · rfl

/-- Any manual snapshot found after folding the loop either was already in
the accumulator or comes from an enabled profile of the scanned list whose id
is the active one. -/
theorem scan_manual_from (activeId : Option Nat) (window : WindowSnapshot)
    (history : HistoryMap) (l : List (Nat × ProfileRecord)) :
    ∀ (s : SelectState) (m : ActiveProfileSnapshot),
      (l.foldl (select_step activeId window history) s).manual = some m →
      s.manual = some m ∨
        ∃ entry ∈ l, entry.2.profile.enabled = true ∧
          activeId = some entry.2.profile.id ∧ m = manualSnapshot entry.1 entry.2 := by
  induction l with
  | nil => intro s m h; exact Or.inl h
  | cons e rest ih =>
    intro s m h
    rw [List.foldl_cons] at h
    rcases ih (select_step activeId window history s e) m h with h' | ⟨entry, hmem, hok⟩
    · rcases selectStep_manual_cases activeId window history s e with hc | ⟨hc, hen, hid⟩
      · exact Or.inl (hc ▸ h')
      · right
        refine ⟨e, List.mem_cons_self e rest, hen, hid, ?_⟩
        rw [hc] at h'
        exact (Option.some_inj.mp h').symm
    · exact Or.inr ⟨entry, List.mem_cons_of_mem e hmem, hok⟩

/-- Unfolding equation for `lastFallback` on a cons cell. -/
theorem lastFallback_cons (activeId : Option Nat) (window : WindowSnapshot)
    (history : HistoryMap) (e : Nat × ProfileRecord) (rest : List (Nat × ProfileRecord)) :
    lastFallback activeId window history (e :: rest) =
      match lastFallback activeId window history rest with
      | some c => some c
      | none => stepFallbackCandidate activeId window history e := rfl

/-- After folding the loop, the fallback slot holds the candidate of the LAST
entry that contributed one (or the accumulator's previous value if none
did). -/
theorem scan_fallback_last (activeId : Option Nat) (window : WindowSnapshot)
    (history : HistoryMap) (l : List (Nat × ProfileRecord)) :
    ∀ s : SelectState,
      (l.foldl (select_step activeId window history) s).fallback =
        match lastFallback activeId window history l with
        | some c => some c
        | none => s.fallback := by
  induction l with
  | nil => intro s; rfl
  | cons e rest ih =>
    intro s
    rw [List.foldl_cons, ih, lastFallback_cons]
    cases hlast : lastFallback activeId window history rest with
    | some c => rfl
    | none => rw [selectStep_fallback_eq]

theorem isSome_map_snd (x : Option (Nat × Int)) : (x.map (·.2)).isSome = x.isSome := by
  cases x <;> rfl

/-- The overwrite pass of `HashMap::insert` keeps every key findable. -/
theorem find_key_isSome_map (k knew : Nat) (v : Int) (l : List (Nat × Int))
    (h : (l.find? (fun e => e.1 == k)).isSome = true) :
    ((l.map (fun e => if e.1 == knew then (knew, v) else e)).find?
      (fun e => e.1 == k)).isSome = true := by
  induction l with
  | nil => simp [List.find?] at h
  | cons e rest ih =>
    rw [List.map_cons]
    by_cases hk : e.1 = k
    · by_cases hn : e.1 = knew
      · have hkk : knew = k := by rw [← hn, hk]
        rw [if_pos (by simpa using hn), List.find?_cons_of_pos _ (by simpa using hkk)]
        rfl
      · rw [if_neg (by simpa using hn), List.find?_cons_of_pos _ (by simpa using hk)]
        rfl
    · rw [List.find?_cons_of_neg _ (by simpa using hk)] at h
      by_cases hn : e.1 = knew
      · have hkn : ¬ knew = k := by rw [← hn]; exact hk
        rw [if_pos (by simpa using hn), List.find?_cons_of_neg _ (by simpa using hkn)]
        exact ih h
      · rw [if_neg (by simpa using hn), List.find?_cons_of_neg _ (by simpa using hk)]
        exact ih h

/-- `HashMap::insert` never removes a key from the history map. -/
theorem historyGet_insert_isSome (m : HistoryMap) (k knew : Nat) (v : Int)
    (h : (m.get k).isSome = true) :
    ((m.insert knew v).get k).isSome = true := by
  unfold HistoryMap.get HistoryMap.insert at *
  rw [isSome_map_snd] at h
  by_cases hc : m.entries.any (fun e => e.1 == knew)
  · rw [if_pos hc]
    rw [isSome_map_snd]
    exact find_key_isSome_map k knew v m.entries h
  · rw [if_neg hc]
    rw [isSome_map_snd]
    by_cases hk : knew = k
    · rw [List.find?_cons_of_pos _ (by simpa using hk)]
      rfl
    · rw [List.find?_cons_of_neg _ (by simpa using hk)]
      exact h


/-- C1 (counterexample): an enabled profile with exactly one usable compiled
rule, none of whose rules match the snapshot, IS returned by `select_profile`
as a fallback candidate, contrary to the claim. -/
theorem C1_fallback_floor_counterexample :
    (parse_rules [exChromeRule]).length = 1 ∧
    match_rules (parse_rules [exChromeRule]) (some "notepad.exe") none none none = none ∧
    exChromeStore.profiles.map (fun r => r.profile.enabled) = [true] ∧
    select_profile exChromeStore exNotepadWindow ⟨[]⟩ =
      some ⟨0, "Chrome", .fallback, false, some 0, some "fallback", none, true⟩ := by
  decide

/-- C1 (amended): every enabled, non-manually-activated profile whose
compiled rules produce no match — whether it has zero usable rules or rules
that all fail — is installed as the loop's fallback candidate and may be
selected as fallback. -/
theorem C1_fallback_floor (activeId : Option Nat) (window : WindowSnapshot)
    (history : HistoryMap) (s : SelectState) (index : Nat) (record : ProfileRecord)
    (henabled : record.profile.enabled = true)
    (hmanual : ¬ activeId = some record.profile.id)
    (hnomatch : match_rules (parse_rules record.profile.activation_rules)
      window.process_name window.window_title window.window_class window.screen_area = none) :
    select_step activeId window history s (index, record) =
      { s with fallback := some (ProfileCandidate.fallback index record.profile.name
          (history.get index) record.profile.hold_to_open) } := by
  unfold select_step
  dsimp only
  rw [henabled, hnomatch, if_neg (by simp), if_neg hmanual]
  rfl

/-- C1 (witness): the amended statement at a concrete profile and snapshot. -/
theorem C1_fallback_floor_witness :
    select_step none exNotepadWindow ⟨[]⟩ ⟨none, none, none⟩
      (0, ⟨⟨1, "Chrome", true, [exChromeRule], false⟩⟩) =
      ⟨none, some (ProfileCandidate.fallback 0 "Chrome" none false), none⟩ :=
  C1_fallback_floor none exNotepadWindow ⟨[]⟩ ⟨none, none, none⟩ 0
    ⟨⟨1, "Chrome", true, [exChromeRule], false⟩⟩ (by decide) (by decide) (by decide)


/-- C2 (counterexample): in a store with both a fallback candidate and a
manually-activated enabled profile, `select_profile` returns the manual
snapshot (match kind `Custom`, score 255) instead of the fallback candidate,
so the manual branch sits BEFORE the fallback branch and does not produce a
`Fallback`-kind snapshot. -/
theorem C2_precedence_counterexample :
    (routerScan exManualStore exNotepadWindow ⟨[]⟩).best = none ∧
    (routerScan exManualStore exNotepadWindow ⟨[]⟩).fallback.map
      (fun c => c.snapshot.index) = some 1 ∧
    select_profile exManualStore exNotepadWindow ⟨[]⟩ =
      some ⟨0, "Manual", .custom, false, some 255, some "manual override", none, false⟩ := by
  decide

/-- C2 (amended): `select_profile` returns the best rule-based candidate if
one exists; otherwise the manual-override snapshot (synthesized, `Custom`
kind, score 255, only for an enabled profile whose id is
`active_profile_id`); otherwise the fallback candidate; otherwise `None` —
the manual branch strictly BEFORE the fallback branch. -/
theorem C2_precedence (store : ProfileStore) (window : WindowSnapshot)
    (history : HistoryMap) :
    (select_profile store window history =
      match (routerScan store window history).best with
      | some c => some c.snapshot
      | none =>
        match (routerScan store window history).manual with
        | some m => some m
        | none => (routerScan store window history).fallback.map (fun c => c.snapshot)) ∧
    (∀ m, (routerScan store window history).manual = some m →
      ∃ entry ∈ store.profiles.enum, entry.2.profile.enabled = true ∧
        store.active_profile_id = some entry.2.profile.id ∧
        m = manualSnapshot entry.1 entry.2 ∧ m.match_kind = .custom ∧
        m.selector_score = some 255 ∧ m.matched_rule = some "manual override") := by
  constructor
  · unfold select_profile
    dsimp only
    cases hbest : (routerScan store window history).best with
    | some c => simp [Option.orElse]
    | none =>
      cases hman : (routerScan store window history).manual with
      | some m => simp [Option.orElse]
      | none =>
        cases hfb : (routerScan store window history).fallback with
        | some c => simp [Option.orElse]
        | none => simp [Option.orElse]
  · intro m hm
    rcases scan_manual_from store.active_profile_id window history store.profiles.enum
      ⟨none, none, none⟩ m hm with h | ⟨entry, hmem, hen, hid, hm'⟩
    · exact Option.noConfusion h
    · exact ⟨entry, hmem, hen, hid, hm', by rw [hm']; rfl, by rw [hm']; rfl, by rw [hm']; rfl⟩

/-- C2 (witness): the amended statement at the fixture store. -/
theorem C2_precedence_witness :
    (select_profile exManualStore exNotepadWindow ⟨[]⟩ =
      match (routerScan exManualStore exNotepadWindow ⟨[]⟩).best with
      | some c => some c.snapshot
      | none =>
        match (routerScan exManualStore exNotepadWindow ⟨[]⟩).manual with
        | some m => some m
        | none => (routerScan exManualStore exNotepadWindow ⟨[]⟩).fallback.map
            (fun c => c.snapshot)) ∧
    (∀ m, (routerScan exManualStore exNotepadWindow ⟨[]⟩).manual = some m →
      ∃ entry ∈ exManualStore.profiles.enum, entry.2.profile.enabled = true ∧
        exManualStore.active_profile_id = some entry.2.profile.id ∧
        m = manualSnapshot entry.1 entry.2 ∧ m.match_kind = .custom ∧
        m.selector_score = some 255 ∧ m.matched_rule = some "manual override") :=
  C2_precedence exManualStore exNotepadWindow ⟨[]⟩


/-- C3 (code bug): `update_active_profile` compares with full derived
equality INCLUDING `selected_at`, so after one committed change the freshly
computed result — value-equal to the stored snapshot ignoring `selected_at` —
is treated as different on the next evaluation: a second audit line is
written and a second event emitted, where the claim (and the spec's
idempotence property) requires a no-op. -/
theorem C3_change_detection_bug :
    eqIgnoringSelectedAt exFirstEval.state.current
      (select_profile exChromeStore exChromeWindow exFirstEval.state.history) = true ∧
    exFirstEval.state.current ≠
      select_profile exChromeStore exChromeWindow exFirstEval.state.history ∧
    exFirstEval.audit_log.length = 1 ∧ exFirstEval.events.length = 1 ∧
    exSecondEval.audit_log.length = 1 ∧ exSecondEval.events.length = 1 := by
  decide

/-- C4 (counterexample): an `Always` rule compiles to a `Fallback` matcher
with target `Any`, and its match reports specificity score 1 (the `Any`
score), not 0 as the claim states. -/
theorem C4_score_table_counterexample :
    parse_rule exAlwaysRule = some ⟨.any, .fallback, "fallback"⟩ ∧
    match_rules (parse_rules [exAlwaysRule]) none none none none =
      some ⟨.fallback, 1, "fallback", true⟩ := by
  decide

/-- C4 (amended): the specificity table is ScreenArea=5, ProcessName=4,
WindowClass=3, WindowTitle=2, Any/Custom=1; a `Fallback` matcher match
reports its rule's target score (1 for an `Always` rule), while score 0
belongs only to the synthesized no-match fallback candidate; a score-5
candidate always beats a score-4 candidate and never loses to it. -/
theorem C4_score_table (target : Target) (raw : String) (rest : List Rule)
    (p w c : Option String) (a : Option ScreenArea) (index : Nat) (name : String)
    (last : Option Int) (hold : Bool) (c1 c2 : ProfileCandidate)
    (h5 : c1.score = 5) (h4 : c2.score = 4) :
    Target.match_score .screenArea = 5 ∧ Target.match_score .process = 4 ∧
    Target.match_score .windowClass = 3 ∧ Target.match_score .windowTitle = 2 ∧
    Target.match_score .any = 1 ∧
    match_rules (⟨target, .fallback, raw⟩ :: rest) p w c a =
      some ⟨.fallback, target.match_score, raw, true⟩ ∧
    (ProfileCandidate.fallback index name last hold).score = 0 ∧
    (ProfileCandidate.fallback index name last hold).snapshot.selector_score = some 0 ∧
    is_better_candidate c1 (some c2) = true ∧
    is_better_candidate c2 (some c1) = false := by
  refine ⟨rfl, rfl, rfl, rfl, rfl, rfl, rfl, rfl, ?_, ?_⟩
  · simp [is_better_candidate, h5, h4]
  · simp [is_better_candidate, h5, h4]

/-- C4 (witness): the amended statement at concrete values. -/
theorem C4_score_table_witness :
    Target.match_score .screenArea = 5 ∧ Target.match_score .process = 4 ∧
    Target.match_score .windowClass = 3 ∧ Target.match_score .windowTitle = 2 ∧
    Target.match_score .any = 1 ∧
    match_rules [⟨.any, .fallback, "fallback"⟩] none none none none =
      some ⟨.fallback, Target.match_score .any, "fallback", true⟩ ∧
    (ProfileCandidate.fallback 0 "A" none false).score = 0 ∧
    (ProfileCandidate.fallback 0 "A" none false).snapshot.selector_score = some 0 ∧
    is_better_candidate ⟨exCandA.snapshot, 5, none, 0⟩
      (some ⟨exCandB.snapshot, 4, none, 1⟩) = true ∧
    is_better_candidate ⟨exCandB.snapshot, 4, none, 1⟩
      (some ⟨exCandA.snapshot, 5, none, 0⟩) = false :=
  C4_score_table .any "fallback" [] none none none none 0 "A" none false
    ⟨exCandA.snapshot, 5, none, 0⟩ ⟨exCandB.snapshot, 4, none, 1⟩ rfl rfl


/-- C5 (counterexample): a `ProcessName` rule with value `"regex:chrome"`
and `case_sensitive` unset compiles to a regex that does NOT match the
process name `"CHROME"`, although the strings differ only by ASCII case —
the compiled regex is case-sensitive, contrary to the claim. -/
theorem C5_regex_case_counterexample :
    exRegexRule.case_sensitive = none ∧
    parse_rule exRegexRule = some ⟨.process, .regex ⟨"chrome"⟩, "regex:chrome"⟩ ∧
    eqIgnoreAsciiCase "CHROME" "chrome" = true ∧
    match_rules (parse_rules [exRegexRule]) (some "CHROME") none none none = none := by
  decide

/-- C5 (amended): a text rule whose trimmed value starts with `"regex:"`
(and whose `is_regex` field is unset) compiles the trimmed remainder as a
regex with the crate's default case-sensitive semantics — the
`case_sensitive` flag has no effect on the compiled rule — and a compile
failure drops the rule while the remaining rules are still compiled. -/
theorem C5_regex_compilation (rule : ActivationRule) (target : Target) (v : String)
    (cs : Option Bool) (pre post : List ActivationRule) (bad : ActivationRule)
    (hv : rule.value = some v) (hpre : strStartsWith (strTrim v) "regex:" = true)
    (hne : strIsEmpty (strTrim v) = false) (hflag : rule.is_regex = none)
    (hbad : parse_rule bad = none) :
    build_text_rule rule target =
      (if strIsEmpty (strTrim (strDrop (strTrim v) 6)) then none
       else (Regex.new (strTrim (strDrop (strTrim v) 6))).map
         (fun r => ⟨target, .regex r, strTrim v⟩)) ∧
    build_text_rule { rule with case_sensitive := cs } target =
      build_text_rule rule target ∧
    parse_rules (pre ++ bad :: post) = parse_rules pre ++ parse_rules post := by
  have main : ∀ r : ActivationRule, r.value = some v → r.is_regex = none →
      build_text_rule r target =
        (if strIsEmpty (strTrim (strDrop (strTrim v) 6)) then none
         else (Regex.new (strTrim (strDrop (strTrim v) 6))).map
           (fun r' => ⟨target, .regex r', strTrim v⟩)) := by
    intro r hv' hflag'
    unfold build_text_rule
    rw [hv']
    dsimp only
    rw [hne, hflag', hpre]
    dsimp only [Option.getD]
    simp only [Bool.false_eq_true, if_false, if_true]
    cases hnew : Regex.new (strTrim (strDrop (strTrim v) 6)) with
    | none => simp [hnew]
    | some r' => simp [hnew]
  refine ⟨main rule hv hflag, ?_, ?_⟩
  · rw [main { rule with case_sensitive := cs } (by simpa using hv) (by simpa using hflag),
      main rule hv hflag]
  · simp [parse_rules, List.filterMap_append, List.filterMap_cons, hbad]

/-- C5 (witness): the amended statement at the fixture regex rule, with a
bad-regex rule dropped between two surviving rules. -/
theorem C5_regex_compilation_witness :
    build_text_rule exRegexRule .process =
      (if strIsEmpty (strTrim (strDrop (strTrim "regex:chrome") 6)) then none
       else (Regex.new (strTrim (strDrop (strTrim "regex:chrome") 6))).map
         (fun r => ⟨.process, .regex r, strTrim "regex:chrome"⟩)) ∧
    build_text_rule { exRegexRule with case_sensitive := some true } .process =
      build_text_rule exRegexRule .process ∧
    parse_rules ([exChromeRule] ++ exBadRegexRule :: [exAlwaysRule]) =
      parse_rules [exChromeRule] ++ parse_rules [exAlwaysRule] :=
  C5_regex_compilation exRegexRule .process "regex:chrome" (some true)
    [exChromeRule] [exAlwaysRule] exBadRegexRule (by decide) (by decide) (by decide)
    (by decide) (by decide)


/-- C6 (counterexample): with two enabled rule-less (fallback-only) profiles,
`select_profile` returns the SECOND one (index 1), not the first: the
fallback slot is overwritten by each later fallback candidate. -/
theorem C6_first_fallback_counterexample :
    exTwoFallbackStore.profiles.map
      (fun r => (r.profile.enabled, r.profile.activation_rules.length)) =
      [(true, 0), (true, 0)] ∧
    select_profile exTwoFallbackStore exNotepadWindow ⟨[]⟩ =
      some ⟨1, "B", .fallback, false, some 0, some "fallback", none, true⟩ := by
  decide

/-- C6 (amended): the loop keeps the LAST fallback candidate in declaration
order — the fallback slot after the scan equals the candidate contributed by
the latest fallback-contributing profile — and that candidate is returned
when no rule-based and no manual candidate exists. -/
theorem C6_last_fallback (store : ProfileStore) (window : WindowSnapshot)
    (history : HistoryMap) :
    (routerScan store window history).fallback =
      lastFallback store.active_profile_id window history store.profiles.enum ∧
    ((routerScan store window history).best = none →
      (routerScan store window history).manual = none →
      select_profile store window history =
        (lastFallback store.active_profile_id window history store.profiles.enum).map
          (fun c => c.snapshot)) := by
  have h1 : (routerScan store window history).fallback =
      lastFallback store.active_profile_id window history store.profiles.enum := by
    unfold routerScan
    rw [scan_fallback_last store.active_profile_id window history store.profiles.enum
      ⟨none, none, none⟩]
    cases lastFallback store.active_profile_id window history store.profiles.enum with
    | some c => rfl
    | none => rfl
  refine ⟨h1, ?_⟩
  intro hbest hman
  unfold select_profile
  dsimp only
  rw [hbest, hman, h1]
  simp [Option.orElse]

/-- C6 (witness): the amended statement at the two-fallback fixture store. -/
theorem C6_last_fallback_witness :
    select_profile exTwoFallbackStore exNotepadWindow ⟨[]⟩ =
      (lastFallback exTwoFallbackStore.active_profile_id exNotepadWindow ⟨[]⟩
        exTwoFallbackStore.profiles.enum).map (fun c => c.snapshot) :=
  (C6_last_fallback exTwoFallbackStore exNotepadWindow ⟨[]⟩).2 (by decide) (by decide)

/-- C7: `is_better_candidate` prefers strictly higher score; on equal score
the more recent `last_selected` entry wins, any history beats none, and with
no history on either side the lower declaration index wins; consequently two
equally-scored history-less matching profiles resolve to the lower index
(spec Scenario C at the fixture store). -/
theorem C7_tie_breaking (cNew cOld : ProfileCandidate) (a b : Int) :
    is_better_candidate cNew none = true ∧
    (cNew.score > cOld.score → is_better_candidate cNew (some cOld) = true) ∧
    (cNew.score < cOld.score → is_better_candidate cNew (some cOld) = false) ∧
    (cNew.score = cOld.score → cNew.last_selected = some a →
      cOld.last_selected = some b →
      is_better_candidate cNew (some cOld) = decide (a > b)) ∧
    (cNew.score = cOld.score → cNew.last_selected = some a →
      cOld.last_selected = none → is_better_candidate cNew (some cOld) = true) ∧
    (cNew.score = cOld.score → cNew.last_selected = none →
      cOld.last_selected = some b → is_better_candidate cNew (some cOld) = false) ∧
    (cNew.score = cOld.score → cNew.last_selected = none →
      cOld.last_selected = none →
      is_better_candidate cNew (some cOld) = decide (cNew.order < cOld.order)) ∧
    select_profile exTieStore exChromeWindow ⟨[]⟩ =
      some ⟨0, "First", .custom, false, some 1, some "chrome.exe", none, false⟩ := by
  refine ⟨rfl, ?_, ?_, ?_, ?_, ?_, ?_, by decide⟩
  · intro h
    simp [is_better_candidate, Nat.ne_of_gt h, h]
  · intro h
    simp [is_better_candidate, Nat.ne_of_lt h, Nat.lt_asymm h]
  · intro h ha hb
    simp [is_better_candidate, h, ha, hb]
  · intro h ha hb
    simp [is_better_candidate, h, ha, hb]
  · intro h ha hb
    simp [is_better_candidate, h, ha, hb]
  · intro h ha hb
    simp [is_better_candidate, h, ha, hb]

/-- C7 (witness): the tie-break statement at two concrete equal-score,
history-less candidates with declaration indices 0 and 1. -/
theorem C7_tie_breaking_witness :
    is_better_candidate exCandA none = true ∧
    is_better_candidate exCandA (some exCandB) = decide ((0 : Nat) < 1) ∧
    is_better_candidate exCandB (some exCandA) = decide ((1 : Nat) < 0) :=
  ⟨(C7_tie_breaking exCandA exCandB 0 0).1,
   (C7_tie_breaking exCandA exCandB 0 0).2.2.2.2.2.2.1 rfl rfl rfl,
   (C7_tie_breaking exCandB exCandA 0 0).2.2.2.2.2.2.1 rfl rfl rfl⟩

/-- C8 (counterexample): a `ScreenArea` rule whose rectangle has zero width
and height is NOT dropped: it compiles to a `ScreenArea` matcher holding the
degenerate rectangle. -/
theorem C8_screen_area_counterexample :
    parse_rule exZeroAreaRule =
      some ⟨.screenArea, .screenArea ⟨0, 0, 0, 0⟩, "screen_area:0x0:0x0"⟩ := by
  decide

/-- C8 (amended): compiling a `ScreenArea` rule produces a matcher holding
the exact rectangle whenever the rule carries one — regardless of the sign of
width or height; only a rule missing its `screen_area` value is dropped. -/
theorem C8_screen_area (rule : ActivationRule) (hmode : rule.mode = .screenArea) :
    parse_rule rule = rule.screen_area.map (fun area =>
      ⟨.screenArea, .screenArea ⟨area.x, area.y, area.width, area.height⟩,
        "screen_area:" ++ toString area.x ++ "x" ++ toString area.y ++ ":"
          ++ toString area.width ++ "x" ++ toString area.height⟩) := by
  unfold parse_rule
  rw [hmode]
  unfold build_screen_area_rule
  cases rule.screen_area with
  | none => rfl
  | some area => rfl

/-- C8 (witness): the amended statement at a rule whose rectangle has
negative width and zero height. -/
theorem C8_screen_area_witness :
    parse_rule exNegAreaRule = exNegAreaRule.screen_area.map (fun area =>
      ⟨.screenArea, .screenArea ⟨area.x, area.y, area.width, area.height⟩,
        "screen_area:" ++ toString area.x ++ "x" ++ toString area.y ++ ":"
          ++ toString area.width ++ "x" ++ toString area.height⟩) :=
  C8_screen_area exNegAreaRule (by decide)


/-- C9: for an enabled profile whose id equals `active_profile_id`, the loop
skips rule evaluation entirely (the step result is unchanged when the
profile's rules are replaced by any other list) and installs a `Custom`-kind
snapshot with score 255 and matched rule "manual override"; that snapshot is
returned only when no profile produced a rule-based (non-fallback) candidate,
and any rule-based candidate takes precedence over it. -/
theorem C9_manual_override (activeId : Option Nat) (window : WindowSnapshot)
    (history : HistoryMap) (s : SelectState) (index : Nat) (record : ProfileRecord)
    (rules2 : List ActivationRule) (store : ProfileStore) (c : ProfileCandidate)
    (m : ActiveProfileSnapshot)
    (henabled : record.profile.enabled = true)
    (hid : activeId = some record.profile.id) :
    select_step activeId window history s (index, record) =
      { s with manual := some (manualSnapshot index record) } ∧
    select_step activeId window history s
        (index, ⟨{ record.profile with activation_rules := rules2 }⟩) =
      { s with manual := some (manualSnapshot index record) } ∧
    (manualSnapshot index record).match_kind = .custom ∧
    (manualSnapshot index record).selector_score = some 255 ∧
    (manualSnapshot index record).matched_rule = some "manual override" ∧
    (manualSnapshot index record).fallback_applied = false ∧
    ((routerScan store window history).best = some c →
      select_profile store window history = some c.snapshot) ∧
    ((routerScan store window history).best = none →
      (routerScan store window history).manual = some m →
      select_profile store window history = some m) := by
  refine ⟨?_, ?_, rfl, rfl, rfl, rfl, ?_, ?_⟩
  · unfold select_step
    dsimp only
    rw [henabled, hid, if_neg (by simp), if_pos rfl]
  · unfold select_step
    dsimp only
    rw [henabled, hid, if_neg (by simp), if_pos rfl]
    rfl
  · intro hbest
    unfold select_profile
    dsimp only
    rw [hbest]
    rfl
  · intro hbest hman
    unfold select_profile
    dsimp only
    rw [hbest, hman]
    rfl

/-- C9 (witness): the statement at the fixture manual-override store. -/
theorem C9_manual_override_witness :
    select_step (some 7) exNotepadWindow ⟨[]⟩ ⟨none, none, none⟩
      (0, ⟨⟨7, "Manual", true, [], false⟩⟩) =
      ⟨none, none, some (manualSnapshot 0 ⟨⟨7, "Manual", true, [], false⟩⟩)⟩ ∧
    select_step (some 7) exNotepadWindow ⟨[]⟩ ⟨none, none, none⟩
      (0, ⟨⟨7, "Manual", true, [exChromeRule], false⟩⟩) =
      ⟨none, none, some (manualSnapshot 0 ⟨⟨7, "Manual", true, [], false⟩⟩)⟩ ∧
    (manualSnapshot 0 ⟨⟨7, "Manual", true, [], false⟩⟩).match_kind = .custom ∧
    (manualSnapshot 0 ⟨⟨7, "Manual", true, [], false⟩⟩).selector_score = some 255 ∧
    (manualSnapshot 0 ⟨⟨7, "Manual", true, [], false⟩⟩).matched_rule =
      some "manual override" ∧
    (manualSnapshot 0 ⟨⟨7, "Manual", true, [], false⟩⟩).fallback_applied = false ∧
    ((routerScan exManualStore exNotepadWindow ⟨[]⟩).best = some exCandA →
      select_profile exManualStore exNotepadWindow ⟨[]⟩ = some exCandA.snapshot) ∧
    ((routerScan exManualStore exNotepadWindow ⟨[]⟩).best = none →
      (routerScan exManualStore exNotepadWindow ⟨[]⟩).manual =
        some (manualSnapshot 0 ⟨⟨7, "Manual", true, [], false⟩⟩) →
      select_profile exManualStore exNotepadWindow ⟨[]⟩ =
        some (manualSnapshot 0 ⟨⟨7, "Manual", true, [], false⟩⟩)) :=
  C9_manual_override (some 7) exNotepadWindow ⟨[]⟩ ⟨none, none, none⟩ 0
    ⟨⟨7, "Manual", true, [], false⟩⟩ [exChromeRule] exManualStore exCandA
    (manualSnapshot 0 ⟨⟨7, "Manual", true, [], false⟩⟩) (by decide) (by decide)

/-- C10: `update_active_profile` is a no-op (state, history, notification)
when `next` equals `current`; a committed change to `None` replaces `current`
but leaves the history untouched, and via `evaluate_from_state` writes no
audit line (while still emitting the change event); and no update ever
removes a history entry. -/
theorem C10_update_frame (state : RouterState) (next : Option ActiveProfileSnapshot)
    (now : Int) (k : Nat) (store : ProfileStore) (window : WindowSnapshot) :
    (state.current = next → update_active_profile state next now = (state, none)) ∧
    (¬ state.current = none →
      update_active_profile state none now = (⟨none, state.history⟩, some none)) ∧
    (select_profile store window state.history = none → ¬ state.current = none →
      evaluate_from_state store window state now = ⟨⟨none, state.history⟩, [], [none]⟩) ∧
    ((state.history.get k).isSome = true →
      (((update_active_profile state next now).1.history).get k).isSome = true) := by
  refine ⟨?_, ?_, ?_, ?_⟩
  · intro h
    unfold update_active_profile
    rw [if_neg (fun hn => hn h)]
  · intro h
    unfold update_active_profile
    rw [if_pos h]
    rfl
  · intro hsel hcur
    unfold evaluate_from_state
    dsimp only
    rw [hsel]
    unfold update_active_profile
    rw [if_pos hcur]
    rfl
  · intro h
    unfold update_active_profile
    by_cases hc : state.current ≠ next
    · rw [if_pos hc]
      cases next with
      | none => exact h
      | some snapshot => exact historyGet_insert_isSome state.history k snapshot.index now h
    · rw [if_neg hc]
      exact h

/-- C10 (witness): the frame properties at a concrete router state holding a
snapshot and one history entry. -/
theorem C10_update_frame_witness :
    update_active_profile exState (some exSnapA) 9 = (exState, none) ∧
    update_active_profile exState none 9 = (⟨none, exState.history⟩, some none) ∧
    evaluate_from_state ⟨[], none⟩ exNotepadWindow exState 9 =
      ⟨⟨none, exState.history⟩, [], [none]⟩ ∧
    (((update_active_profile exState (some exSnapA) 9).1.history).get 0).isSome = true :=
  ⟨(C10_update_frame exState (some exSnapA) 9 0 ⟨[], none⟩ exNotepadWindow).1 rfl,
   (C10_update_frame exState none 9 0 ⟨[], none⟩ exNotepadWindow).2.1 (by decide),
   (C10_update_frame exState none 9 0 ⟨[], none⟩ exNotepadWindow).2.2.1 (by decide)
     (by decide),
   (C10_update_frame exState (some exSnapA) 9 0 ⟨[], none⟩ exNotepadWindow).2.2.2
     (by decide)⟩

end ProfileRouter
